import Mathlib

/-!
Verification of the Discord auto-reply bot repository.

Shallow embedding of the poll-and-reply engine (`discord_bot.py`,
`bot_gui.py`), the monitoring loop (`app.py`), and the two configuration
loaders (`config_loader.py`, `bot_gui.py`).

Browser-driver effects are modelled by explicit outcome parameters: on each
tick the environment supplies what the driver interaction would have done
(returned a message list, or raised one of the exception classes the code
catches), and the embedded functions reproduce the Python control flow on
those outcomes.  Python strings are Lean `String`s; `str.strip()`,
`str.lower()` and the `in` substring test are implemented structurally on
the underlying character lists (`lower` is ASCII lowering, faithful on the
ASCII triggers the program uses).
-/

/-- Drop leading whitespace characters from a char list. -/
def stripLeadingChars : List Char → List Char
  | [] => []
  | c :: cs => if c.isWhitespace then stripLeadingChars cs else c :: cs

/-- Python `s.strip()`: remove leading and trailing whitespace. -/
def pyStrip (s : String) : String :=
  ⟨((stripLeadingChars ((stripLeadingChars s.data).reverse)).reverse)⟩

/-- Python `needle.isPrefixOf`-style check on char lists: does `hay` start
with `needle`? -/
def startsWithChars : List Char → List Char → Bool
  | _, [] => true
  | [], _ :: _ => false
  | a :: as, b :: bs => a == b && startsWithChars as bs

/-- Python `needle in hay` substring containment on char lists. -/
def containsSub : List Char → List Char → Bool
  | [], needle => needle.isEmpty
  | h :: t, needle => startsWithChars (h :: t) needle || containsSub t needle

/-- Python `needle in hay` on strings. -/
def pyIn (needle hay : String) : Bool :=
  containsSub hay.data needle.data

/-- Python `s.lower()` (ASCII lowering). -/
def pyLower (s : String) : String :=
  ⟨s.data.map Char.toLower⟩

/-- Specification-side substring predicate: `needle` occurs contiguously in
`hay`. -/
def IsSubstringOf (needle hay : String) : Prop :=
  ∃ pre post : List Char, hay.data = pre ++ needle.data ++ post

namespace DiscordBot

/-- State of a `DiscordBot` instance (`discord_bot.py`): the configured
triggers and reply text, whether `self.driver` is non-None, and the
`self.last_seen` de-duplication cursor. -/
structure BotState where
  triggers : List String
  reply_text : String
  driver : Bool
  last_seen : String
deriving DecidableEq

/-- What the driver interactions inside the `try` block of
`check_for_new_message` did on this tick: either `find_elements` plus the
`.text` reads succeeded (yielding the element texts, in order), or one of
the exception classes the code catches was raised. -/
inductive QueryOutcome
  | ok (messages : List String)
  | noSuchElement
  | webDriverError
  | otherError
deriving DecidableEq

/-- What the driver interactions inside `_send_reply` did: the
find/click/send_keys sequence succeeded, or raised. -/
inductive ReplyOutcome
  | ok
  | noSuchElement
  | webDriverError
  | otherError
deriving DecidableEq

/-- Result of one `check_for_new_message` call: a normal `return b`, or the
re-raised `WebDriverException`. -/
inductive TickResult
  | ret (b : Bool)
  | raised
deriving DecidableEq

/-- Observable outcome of one tick: the returned/raised result, the
post-state, whether the session was queried at all (`find_elements`
reached), whether `_send_reply` was invoked, and whether the reply was
actually delivered (`send_keys` reached). -/
structure TickOutput where
  result : TickResult
  state : BotState
  queriedSession : Bool
  replyInvoked : Bool
  replySent : Bool
deriving DecidableEq

/-- `DiscordBot.quit` (`discord_bot.py` lines 111-116): if a driver is
attached, close it and null the handle.  Returns the new state and whether
the external `driver.quit()` call was made. -/
def quit (s : BotState) : BotState × Bool :=
  if s.driver then ({ s with driver := false }, true) else (s, false)

/-- `DiscordBot._send_reply` (`discord_bot.py` lines 99-109): every failure
(`NoSuchElementException` or any other `Exception`, including
`WebDriverException`) is caught and logged; the function never raises.
Returns whether the reply was actually delivered. -/
def send_reply : ReplyOutcome → Bool
  | .ok => true
  | .noSuchElement => false
  | .webDriverError => false
  | .otherError => false

/-- `DiscordBot.check_for_new_message` (`discord_bot.py` lines 51-97).
The Python `if last_text and last_text != self.last_seen` guard is modelled
by its (equivalent) negation first to keep the early-return shape. -/
def check_for_new_message (s : BotState) (q : QueryOutcome) (r : ReplyOutcome) :
    TickOutput :=
  if s.driver then
    match q with
    | .ok messages =>
      match messages.getLast? with
      | none =>
        { result := .ret false, state := s, queriedSession := true,
          replyInvoked := false, replySent := false }
      | some last_message =>
        let last_text := pyStrip last_message
        if last_text == "" || last_text == s.last_seen then
          { result := .ret false, state := s, queriedSession := true,
            replyInvoked := false, replySent := false }
        else
          let s2 := { s with last_seen := last_text }
          if s.triggers.any (fun trigger => pyIn (pyLower trigger) (pyLower last_text)) then
            { result := .ret true, state := s2, queriedSession := true,
              replyInvoked := true, replySent := send_reply r }
          else
            { result := .ret false, state := s2, queriedSession := true,
              replyInvoked := false, replySent := false }
    | .noSuchElement =>
      { result := .ret false, state := s, queriedSession := true,
        replyInvoked := false, replySent := false }
    | .webDriverError =>
      { result := .raised, state := (quit s).1, queriedSession := true,
        replyInvoked := false, replySent := false }
    | .otherError =>
      { result := .ret false, state := s, queriedSession := true,
        replyInvoked := false, replySent := false }
  else
    { result := .ret false, state := s, queriedSession := false,
      replyInvoked := false, replySent := false }

/-- One iteration of `bot_monitor_loop` (`app.py` lines 18-42) while
`is_running` holds: run a tick; a normal return continues the loop, an
escaping exception is caught, the bot is quit in the `finally` block and
`is_running` is cleared.  Returns the post-state and the new `is_running`. -/
def bot_monitor_step (s : BotState) (q : QueryOutcome) (r : ReplyOutcome) :
    BotState × Bool :=
  let out := check_for_new_message s q r
  match out.result with
  | .ret _ => (out.state, true)
  | .raised => ((quit out.state).1, false)

end DiscordBot

namespace Gui

/-- State of the `DiscordBot` in `bot_gui.py`: adds the `is_monitoring` and
`is_driver_ready` event flags. -/
structure GuiState where
  triggers : List String
  reply_text : String
  driver : Bool
  last_seen : String
  is_monitoring : Bool
  is_driver_ready : Bool
deriving DecidableEq

/-- `DiscordBot.quit` (`bot_gui.py` lines 194-201): if a driver is attached,
close it, null the handle, and clear both event flags; otherwise do
nothing.  Returns the new state and whether `driver.quit()` was called. -/
def quit (s : GuiState) : GuiState × Bool :=
  if s.driver then
    ({ s with driver := false, is_monitoring := false, is_driver_ready := false }, true)
  else (s, false)

/-- `DiscordBot._send_reply` (`bot_gui.py` lines 183-192): one catch-all
`except Exception` handler; never raises.  Returns whether the reply was
delivered. -/
def send_reply : DiscordBot.ReplyOutcome → Bool
  | .ok => true
  | .noSuchElement => false
  | .webDriverError => false
  | .otherError => false

end Gui

namespace Config

/-- The two configuration keys the loaders care about.  A Python JSON dict
is modelled by which of the required keys it has (and their values); other
keys play no role in the decisions of either loader. -/
structure Json where
  TRIGGERS? : Option (List String)
  REPLY_TEXT? : Option String
deriving DecidableEq

/-- What the file system held when the loader ran: the file parsed as JSON,
was missing (`FileNotFoundError`), held invalid JSON (`JSONDecodeError`),
or reading failed some other way (caught by the catch-all handler). -/
inductive FileState
  | validJson (j : Json)
  | missing
  | invalidJson
  | otherError
deriving DecidableEq

/-- What a loader call produced: the returned config dict, the returned
success flag, and what (if anything) it wrote back to the config file. -/
structure LoadResult where
  config : Json
  success : Bool
  written : Option Json
deriving DecidableEq

end Config

namespace GuiConfig

/-- `DEFAULT_TRIGGERS` (`bot_gui.py` line 25). -/
def DEFAULT_TRIGGERS : List String := ["@team"]

/-- `DEFAULT_REPLY` (`bot_gui.py` line 26). -/
def DEFAULT_REPLY : String := "Team Take"

/-- `load_config` (`bot_gui.py` lines 43-75).  On `FileNotFoundError` it
builds the default config, persists it via `save_config`, and returns it
with success `True`; on `JSONDecodeError` or any other error it returns the
defaults with success `False` and writes nothing; on a parsed dict it
returns it (filling missing required keys from the defaults) with success
`True`. -/
def load_config : Config.FileState → Config.LoadResult
  | .validJson j =>
    if j.TRIGGERS?.isSome && j.REPLY_TEXT?.isSome then
      { config := j, success := true, written := none }
    else
      { config := { TRIGGERS? := some (j.TRIGGERS?.getD DEFAULT_TRIGGERS),
                    REPLY_TEXT? := some (j.REPLY_TEXT?.getD DEFAULT_REPLY) },
        success := true, written := none }
  | .missing =>
    let default_config : Config.Json :=
      { TRIGGERS? := some DEFAULT_TRIGGERS, REPLY_TEXT? := some DEFAULT_REPLY }
    { config := default_config, success := true, written := some default_config }
  | .invalidJson =>
    { config := { TRIGGERS? := some DEFAULT_TRIGGERS, REPLY_TEXT? := some DEFAULT_REPLY },
      success := false, written := none }
  | .otherError =>
    { config := { TRIGGERS? := some DEFAULT_TRIGGERS, REPLY_TEXT? := some DEFAULT_REPLY },
      success := false, written := none }

end GuiConfig

namespace ConfigLoader

/-- The empty Python dict `\x7b\x7d` returned on every failure path of
`config_loader.load_config`. -/
def emptyConfig : Config.Json := { TRIGGERS? := none, REPLY_TEXT? := none }

/-- `load_config` (`config_loader.py` lines 21-53).  Every failure —
missing file, invalid JSON, any other read error, or missing required keys
— returns the empty dict with success `False`; nothing is ever written. -/
def load_config : Config.FileState → Config.LoadResult
  | .validJson j =>
    if j.TRIGGERS?.isSome && j.REPLY_TEXT?.isSome then
      { config := j, success := true, written := none }
    else
      { config := emptyConfig, success := false, written := none }
  | .missing => { config := emptyConfig, success := false, written := none }
  | .invalidJson => { config := emptyConfig, success := false, written := none }
  | .otherError => { config := emptyConfig, success := false, written := none }

end ConfigLoader

/-! ### Correctness of the substring embedding -/

theorem startsWithChars_iff (hay needle : List Char) :
    startsWithChars hay needle = true ↔ ∃ rest, hay = needle ++ rest := by
  induction needle generalizing hay with
  | nil => simp [startsWithChars]
  | cons b bs ih =>
    cases hay with
    | nil => simp [startsWithChars]
    | cons a as =>
      simp only [startsWithChars, Bool.and_eq_true, beq_iff_eq, ih, List.cons_append,
        List.cons.injEq]
      constructor
      · rintro ⟨rfl, rest, rfl⟩
        exact ⟨rest, rfl, rfl⟩
      · rintro ⟨rest, rfl, rfl⟩
        exact ⟨rfl, rest, rfl⟩

theorem containsSub_iff (hay needle : List Char) :
    containsSub hay needle = true ↔ ∃ pre post, hay = pre ++ needle ++ post := by
  induction hay with
  | nil =>
    simp only [containsSub, List.isEmpty_iff]
    constructor
    · rintro rfl
      exact ⟨[], [], rfl⟩
    · rintro ⟨pre, post, h⟩
      rcases List.append_eq_nil.mp h.symm with ⟨h1, h2⟩
      exact (List.append_eq_nil.mp h1).2
  | cons c t ih =>
    simp only [containsSub, Bool.or_eq_true, startsWithChars_iff, ih]
    constructor
    · rintro (⟨rest, hr⟩ | ⟨pre, post, hp⟩)
      · exact ⟨[], rest, by simp [hr]⟩
      · exact ⟨c :: pre, post, by simp [hp]⟩
    · rintro ⟨pre, post, hp⟩
      cases pre with
      | nil =>
        exact Or.inl ⟨post, by simpa using hp⟩
      | cons p ps =>
        simp only [List.cons_append, List.cons.injEq] at hp
        exact Or.inr ⟨ps, post, hp.2⟩

theorem pyIn_iff (needle hay : String) :
    pyIn needle hay = true ↔ IsSubstringOf needle hay := by
  simpa [pyIn, IsSubstringOf] using containsSub_iff hay.data needle.data

/-- Bridge from the trigger condition of the code to the spec-side substring
predicate. -/
theorem triggers_any_iff (triggers : List String) (text : String) :
    (triggers.any fun trigger => pyIn (pyLower trigger) (pyLower text)) = true ↔
      ∃ t ∈ triggers, IsSubstringOf (pyLower t) (pyLower text) := by
  simp [List.any_eq_true, pyIn_iff]

/-! ### Characterization of one tick -/

namespace DiscordBot

theorem tick_not_ready (s : BotState) (q : QueryOutcome) (r : ReplyOutcome)
    (hd : s.driver = false) :
    check_for_new_message s q r =
      { result := .ret false, state := s, queriedSession := false,
        replyInvoked := false, replySent := false } := by
  simp [check_for_new_message, hd]

theorem tick_ok_stale (s : BotState) (messages : List String) (m : String)
    (r : ReplyOutcome) (hd : s.driver = true) (hm : messages.getLast? = some m)
    (h : pyStrip m = "" ∨ pyStrip m = s.last_seen) :
    check_for_new_message s (.ok messages) r =
      { result := .ret false, state := s, queriedSession := true,
        replyInvoked := false, replySent := false } := by
  rcases h with h | h <;> simp [check_for_new_message, hd, hm, h]

theorem tick_ok_new (s : BotState) (messages : List String) (m : String)
    (r : ReplyOutcome) (hd : s.driver = true) (hm : messages.getLast? = some m)
    (h1 : pyStrip m ≠ "") (h2 : pyStrip m ≠ s.last_seen) :
    check_for_new_message s (.ok messages) r =
      if s.triggers.any (fun trigger => pyIn (pyLower trigger) (pyLower (pyStrip m))) then
        { result := .ret true, state := { s with last_seen := pyStrip m },
          queriedSession := true, replyInvoked := true, replySent := send_reply r }
      else
        { result := .ret false, state := { s with last_seen := pyStrip m },
          queriedSession := true, replyInvoked := false, replySent := false } := by
  simp [check_for_new_message, hd, hm, h1, h2]

theorem send_reply_fail (r : ReplyOutcome) (hr : r ≠ .ok) : send_reply r = false := by
  cases r <;> simp_all [send_reply]

end DiscordBot

/-! ### Claims -/

/-- C1: on a tick whose latest visible message has non-empty trimmed text
different from the cursor, the engine commits the cursor to that text for
every reply outcome (including failed reply sends), and a subsequent tick
with the same latest message returns without invoking the reply action, so
the message is never re-processed. -/
theorem C1_cursor_committed_before_trigger (s : DiscordBot.BotState)
    (messages : List String) (m : String) (r r2 : DiscordBot.ReplyOutcome)
    (hd : s.driver = true) (hm : messages.getLast? = some m)
    (h1 : pyStrip m ≠ "") (h2 : pyStrip m ≠ s.last_seen) :
    (DiscordBot.check_for_new_message s (.ok messages) r).state.last_seen = pyStrip m ∧
    DiscordBot.check_for_new_message
        (DiscordBot.check_for_new_message s (.ok messages) r).state (.ok messages) r2 =
      { result := .ret false,
        state := (DiscordBot.check_for_new_message s (.ok messages) r).state,
        queriedSession := true, replyInvoked := false, replySent := false } := by
  rw [DiscordBot.tick_ok_new s messages m r hd hm h1 h2]
  split
  all_goals
    exact ⟨rfl, DiscordBot.tick_ok_stale _ messages m r2 hd hm (Or.inr rfl)⟩

/-- C1 witness: concrete run where the reply send failed yet the cursor is
committed and the message is not re-processed. -/
theorem C1_witness :
    (DiscordBot.check_for_new_message ⟨["@team"], "Team Take", true, ""⟩
        (.ok ["@team hi"]) .noSuchElement).state.last_seen = pyStrip "@team hi" ∧
    DiscordBot.check_for_new_message
        (DiscordBot.check_for_new_message ⟨["@team"], "Team Take", true, ""⟩
          (.ok ["@team hi"]) .noSuchElement).state (.ok ["@team hi"]) .ok =
      { result := .ret false,
        state := (DiscordBot.check_for_new_message ⟨["@team"], "Team Take", true, ""⟩
          (.ok ["@team hi"]) .noSuchElement).state,
        queriedSession := true, replyInvoked := false, replySent := false } :=
  C1_cursor_committed_before_trigger ⟨["@team"], "Team Take", true, ""⟩
    ["@team hi"] "@team hi" .noSuchElement .ok rfl rfl (by decide) (by decide)

/-- C2: on a tick that reaches trigger evaluation, the decision is
case-insensitive substring matching: the reply action is invoked and the
tick returns True exactly when some trigger, lower-cased, occurs as a
substring of the lower-cased message text; otherwise the tick returns False
with the reply action not invoked. -/
theorem C2_trigger_case_insensitive_substring (s : DiscordBot.BotState)
    (messages : List String) (m : String) (r : DiscordBot.ReplyOutcome)
    (hd : s.driver = true) (hm : messages.getLast? = some m)
    (h1 : pyStrip m ≠ "") (h2 : pyStrip m ≠ s.last_seen) :
    ((∃ t ∈ s.triggers, IsSubstringOf (pyLower t) (pyLower (pyStrip m))) →
      (DiscordBot.check_for_new_message s (.ok messages) r).result = .ret true ∧
      (DiscordBot.check_for_new_message s (.ok messages) r).replyInvoked = true) ∧
    ((¬ ∃ t ∈ s.triggers, IsSubstringOf (pyLower t) (pyLower (pyStrip m))) →
      (DiscordBot.check_for_new_message s (.ok messages) r).result = .ret false ∧
      (DiscordBot.check_for_new_message s (.ok messages) r).replyInvoked = false) := by
  rw [DiscordBot.tick_ok_new s messages m r hd hm h1 h2]
  constructor
  · intro hex
    rw [if_pos ((triggers_any_iff s.triggers (pyStrip m)).mpr hex)]
    exact ⟨rfl, rfl⟩
  · intro hex
    rw [if_neg (fun hc => hex ((triggers_any_iff s.triggers (pyStrip m)).mp hc))]
    exact ⟨rfl, rfl⟩

/-- C2 witness: a mixed-case trigger fires on a mixed-case message. -/
theorem C2_witness :
    (DiscordBot.check_for_new_message ⟨["@Team"], "Team Take", true, ""⟩
        (.ok ["HELLO @team please"]) .ok).result = .ret true ∧
    (DiscordBot.check_for_new_message ⟨["@Team"], "Team Take", true, ""⟩
        (.ok ["HELLO @team please"]) .ok).replyInvoked = true :=
  (C2_trigger_case_insensitive_substring ⟨["@Team"], "Team Take", true, ""⟩
      ["HELLO @team please"] "HELLO @team please" .ok rfl rfl (by decide) (by decide)).1
    ⟨"@Team", by simp, (pyIn_iff (pyLower "@Team") (pyLower (pyStrip "HELLO @team please"))).mp
      (by decide)⟩

/-- C3: a tick whose latest message has trimmed text empty or exactly equal
to the cursor returns False without invoking the reply action and without
changing state; consequently a second tick with the same latest message
never invokes the reply action. -/
theorem C3_duplicate_message_suppressed (s : DiscordBot.BotState)
    (messages : List String) (m : String) (r r2 : DiscordBot.ReplyOutcome)
    (hd : s.driver = true) (hm : messages.getLast? = some m) :
    (pyStrip m = "" ∨ pyStrip m = s.last_seen →
      DiscordBot.check_for_new_message s (.ok messages) r =
        { result := .ret false, state := s, queriedSession := true,
          replyInvoked := false, replySent := false }) ∧
    (pyStrip m ≠ "" →
      DiscordBot.check_for_new_message
          (DiscordBot.check_for_new_message s (.ok messages) r).state (.ok messages) r2 =
        { result := .ret false,
          state := (DiscordBot.check_for_new_message s (.ok messages) r).state,
          queriedSession := true, replyInvoked := false, replySent := false }) := by
  constructor
  · intro h
    exact DiscordBot.tick_ok_stale s messages m r hd hm h
  · intro h1
    by_cases h2 : pyStrip m = s.last_seen
    · rw [DiscordBot.tick_ok_stale s messages m r hd hm (Or.inr h2)]
      exact DiscordBot.tick_ok_stale s messages m r2 hd hm (Or.inr h2)
    · rw [DiscordBot.tick_ok_new s messages m r hd hm h1 h2]
      split
      all_goals exact DiscordBot.tick_ok_stale _ messages m r2 hd hm (Or.inr rfl)

/-- C3 witness: an unchanged latest message equal to the cursor yields a
no-op tick. -/
theorem C3_witness :
    DiscordBot.check_for_new_message ⟨["@team"], "Team Take", true, "@team hi"⟩
        (.ok ["@team hi"]) .ok =
      { result := .ret false, state := ⟨["@team"], "Team Take", true, "@team hi"⟩,
        queriedSession := true, replyInvoked := false, replySent := false } :=
  (C3_duplicate_message_suppressed ⟨["@team"], "Team Take", true, "@team hi"⟩
      ["@team hi"] "@team hi" .ok .ok rfl rfl).1 (Or.inr (by decide))

/-- C8: with an empty trigger set, a new message updates the cursor and the
tick returns False, and the reply action is never invoked on any tick. -/
theorem C8_empty_triggers_never_reply (s : DiscordBot.BotState)
    (messages : List String) (m : String) (r : DiscordBot.ReplyOutcome)
    (hT : s.triggers = []) (hd : s.driver = true) (hm : messages.getLast? = some m)
    (h1 : pyStrip m ≠ "") (h2 : pyStrip m ≠ s.last_seen) :
    DiscordBot.check_for_new_message s (.ok messages) r =
      { result := .ret false, state := { s with last_seen := pyStrip m },
        queriedSession := true, replyInvoked := false, replySent := false } ∧
    ∀ (q : DiscordBot.QueryOutcome) (r2 : DiscordBot.ReplyOutcome),
      (DiscordBot.check_for_new_message s q r2).replyInvoked = false ∧
      (DiscordBot.check_for_new_message s q r2).replySent = false := by
  constructor
  · rw [DiscordBot.tick_ok_new s messages m r hd hm h1 h2, if_neg (by simp [hT])]
  · intro q r2
    cases q with
    | ok msgs =>
      cases hL : msgs.getLast? with
      | none => simp [DiscordBot.check_for_new_message, hd, hL]
      | some mm =>
        by_cases hs : pyStrip mm = "" ∨ pyStrip mm = s.last_seen
        · rw [DiscordBot.tick_ok_stale s msgs mm r2 hd hL hs]
          exact ⟨rfl, rfl⟩
        · push_neg at hs
          rw [DiscordBot.tick_ok_new s msgs mm r2 hd hL hs.1 hs.2, if_neg (by simp [hT])]
          exact ⟨rfl, rfl⟩
    | noSuchElement => simp [DiscordBot.check_for_new_message, hd]
    | webDriverError => simp [DiscordBot.check_for_new_message, hd]
    | otherError => simp [DiscordBot.check_for_new_message, hd]

/-- C8 witness: an engine with no triggers ignores a fresh message. -/
theorem C8_witness :
    DiscordBot.check_for_new_message ⟨[], "Team Take", true, ""⟩ (.ok ["hi"]) .ok =
      { result := .ret false, state := ⟨[], "Team Take", true, "hi"⟩,
        queriedSession := true, replyInvoked := false, replySent := false } :=
  (C8_empty_triggers_never_reply ⟨[], "Team Take", true, ""⟩ ["hi"] "hi" .ok
      rfl rfl rfl (by decide) (by decide)).1

/-- Helper: a `WebDriverException` during the session query nulls the
driver handle and re-raises. -/
theorem DiscordBot.tick_webdriver (s : DiscordBot.BotState) (r : DiscordBot.ReplyOutcome)
    (hd : s.driver = true) :
    DiscordBot.check_for_new_message s .webDriverError r =
      { result := .raised, state := { s with driver := false },
        queriedSession := true, replyInvoked := false, replySent := false } := by
  simp [DiscordBot.check_for_new_message, DiscordBot.quit, hd]

/-- C5: a session-terminated failure during the query propagates out of the
tick, the session handle becomes absent, the monitoring loop stops
(`is_running` cleared), and every subsequent tick is rejected via the
driver guard without querying the dead session. -/
theorem C5_session_lost_fatal (s : DiscordBot.BotState) (r : DiscordBot.ReplyOutcome)
    (hd : s.driver = true) :
    (DiscordBot.check_for_new_message s .webDriverError r).result = .raised ∧
    (DiscordBot.check_for_new_message s .webDriverError r).state.driver = false ∧
    DiscordBot.bot_monitor_step s .webDriverError r =
      ((DiscordBot.check_for_new_message s .webDriverError r).state, false) ∧
    ∀ (q2 : DiscordBot.QueryOutcome) (r2 : DiscordBot.ReplyOutcome),
      DiscordBot.check_for_new_message
          (DiscordBot.check_for_new_message s .webDriverError r).state q2 r2 =
        { result := .ret false,
          state := (DiscordBot.check_for_new_message s .webDriverError r).state,
          queriedSession := false, replyInvoked := false, replySent := false } := by
  rw [DiscordBot.tick_webdriver s r hd]
  refine ⟨rfl, rfl, ?_, ?_⟩
  · simp [DiscordBot.bot_monitor_step, DiscordBot.tick_webdriver s r hd, DiscordBot.quit]
  · intro q2 r2
    exact DiscordBot.tick_not_ready _ q2 r2 rfl

/-- C5 witness: a concrete session loss tears the engine down and the next
tick is rejected without touching the session. -/
theorem C5_witness :
    (DiscordBot.check_for_new_message ⟨["@team"], "Team Take", true, "z"⟩
        .webDriverError .ok).result = .raised ∧
    (DiscordBot.check_for_new_message ⟨["@team"], "Team Take", true, "z"⟩
        .webDriverError .ok).state.driver = false :=
  ⟨(C5_session_lost_fatal ⟨["@team"], "Team Take", true, "z"⟩ .ok rfl).1,
   (C5_session_lost_fatal ⟨["@team"], "Team Take", true, "z"⟩ .ok rfl).2.1⟩

/-- C6 counterexample: with trigger `@team` matched on message `@team hi`
and a failing reply send, the tick still returns True — it does report the
trigger as fired, contradicting the claim that it returns as if no trigger
had fired. -/
theorem C6_counterexample :
    (DiscordBot.check_for_new_message ⟨["@team"], "Team Take", true, ""⟩
        (.ok ["@team hi"]) .noSuchElement).replySent = false ∧
    (DiscordBot.check_for_new_message ⟨["@team"], "Team Take", true, ""⟩
        (.ok ["@team hi"]) .noSuchElement).result = .ret true := by decide

/-- C6 amended: element-not-found and other non-query-fatal errors are
swallowed, logged, leave all state unchanged and return False; a failing
reply action is swallowed and logged, changes nothing beyond the cursor
commit that preceded it, and the engine keeps running — but the tick still
returns True, reporting the trigger as fired despite the undelivered
reply. -/
theorem C6_nonfatal_failures_swallowed (s : DiscordBot.BotState)
    (messages : List String) (m : String) (r : DiscordBot.ReplyOutcome)
    (hd : s.driver = true) (hm : messages.getLast? = some m)
    (h1 : pyStrip m ≠ "") (h2 : pyStrip m ≠ s.last_seen)
    (hmatch : (s.triggers.any fun trigger =>
      pyIn (pyLower trigger) (pyLower (pyStrip m))) = true)
    (hr : r ≠ .ok) :
    (∀ r2 : DiscordBot.ReplyOutcome,
      DiscordBot.check_for_new_message s .noSuchElement r2 =
        { result := .ret false, state := s, queriedSession := true,
          replyInvoked := false, replySent := false } ∧
      DiscordBot.check_for_new_message s .otherError r2 =
        { result := .ret false, state := s, queriedSession := true,
          replyInvoked := false, replySent := false }) ∧
    DiscordBot.check_for_new_message s (.ok messages) r =
      { result := .ret true, state := { s with last_seen := pyStrip m },
        queriedSession := true, replyInvoked := true, replySent := false } ∧
    DiscordBot.bot_monitor_step s (.ok messages) r =
      ({ s with last_seen := pyStrip m }, true) := by
  have h := DiscordBot.tick_ok_new s messages m r hd hm h1 h2
  rw [if_pos hmatch, DiscordBot.send_reply_fail r hr] at h
  refine ⟨?_, h, ?_⟩
  · intro r2
    constructor
    · simp [DiscordBot.check_for_new_message, hd]
    · simp [DiscordBot.check_for_new_message, hd]
  · simp [DiscordBot.bot_monitor_step, h]

/-- C6 witness: a concrete reply failure leaves the committed cursor and
the loop running, with the tick returning True. -/
theorem C6_witness :
    DiscordBot.check_for_new_message ⟨["@team"], "Team Take", true, ""⟩
        (.ok ["@team ping"]) .otherError =
      { result := .ret true, state := ⟨["@team"], "Team Take", true, "@team ping"⟩,
        queriedSession := true, replyInvoked := true, replySent := false } :=
  (C6_nonfatal_failures_swallowed ⟨["@team"], "Team Take", true, ""⟩
      ["@team ping"] "@team ping" .otherError rfl rfl (by decide) (by decide)
      (by decide) (by decide)).2.1

/-- C4 counterexample: `quit` on a bot whose cursor holds `hello` leaves
the cursor equal to `hello`, not cleared to empty as the claim states. -/
theorem C4_counterexample :
    (DiscordBot.quit ⟨["@team"], "Team Take", true, "hello"⟩).1.last_seen = "hello" ∧
    ("hello" : String) ≠ "" := by decide

/-- C4 amended: `quit` closes the session handle if present (the GUI
variant also clears the monitoring/ready flags), a second call or a
handle-less call is a no-op making no external driver call (so it cannot
raise), but the cursor is not cleared: `last_seen` keeps its value. -/
theorem C4_release_idempotent_cursor_kept (s : DiscordBot.BotState) (g : Gui.GuiState) :
    DiscordBot.quit (DiscordBot.quit s).1 = ((DiscordBot.quit s).1, false) ∧
    (s.driver = false → DiscordBot.quit s = (s, false)) ∧
    (DiscordBot.quit s).1.driver = false ∧
    (DiscordBot.quit s).1.last_seen = s.last_seen ∧
    Gui.quit (Gui.quit g).1 = ((Gui.quit g).1, false) ∧
    (g.driver = false → Gui.quit g = (g, false)) ∧
    (Gui.quit g).1.driver = false ∧
    (Gui.quit g).1.last_seen = g.last_seen ∧
    (g.driver = true →
      (Gui.quit g).1.is_monitoring = false ∧ (Gui.quit g).1.is_driver_ready = false) := by
  by_cases hs : s.driver <;> by_cases hg : g.driver <;>
    simp [DiscordBot.quit, Gui.quit, hs, hg]

/-- C4 witness: double quit on a concrete attached GUI bot is a no-op the
second time and clears the monitoring flag. -/
theorem C4_witness :
    Gui.quit (Gui.quit ⟨["@team"], "Team Take", true, "seen", true, true⟩).1 =
      ((Gui.quit ⟨["@team"], "Team Take", true, "seen", true, true⟩).1, false) ∧
    (Gui.quit ⟨["@team"], "Team Take", true, "seen", true, true⟩).1.is_monitoring = false :=
  ⟨(C4_release_idempotent_cursor_kept ⟨[], "", false, ""⟩
      ⟨["@team"], "Team Take", true, "seen", true, true⟩).2.2.2.2.1,
   ((C4_release_idempotent_cursor_kept ⟨[], "", false, ""⟩
      ⟨["@team"], "Team Take", true, "seen", true, true⟩).2.2.2.2.2.2.2.2 rfl).1⟩

/-- C7 counterexample: `config_loader.load_config` on a missing file
returns the empty dict with success False and writes nothing — no default
configuration is created or returned, contradicting the claim. -/
theorem C7_counterexample :
    (ConfigLoader.load_config .missing).success = false ∧
    (ConfigLoader.load_config .missing).config.TRIGGERS? = none ∧
    (ConfigLoader.load_config .missing).written = none := by decide

/-- C7 amended: the GUI loader creates and returns the documented defaults
on a missing file and surfaces the defaults without writing on malformed
JSON, while the `config_loader.py` loader returns the empty dict with
success False in both situations, never writing anything. -/
theorem C7_config_load_behavior :
    GuiConfig.load_config .missing =
      { config := { TRIGGERS? := some ["@team"], REPLY_TEXT? := some "Team Take" },
        success := true,
        written := some { TRIGGERS? := some ["@team"], REPLY_TEXT? := some "Team Take" } } ∧
    GuiConfig.load_config .invalidJson =
      { config := { TRIGGERS? := some ["@team"], REPLY_TEXT? := some "Team Take" },
        success := false, written := none } ∧
    ConfigLoader.load_config .missing =
      { config := { TRIGGERS? := none, REPLY_TEXT? := none },
        success := false, written := none } ∧
    ConfigLoader.load_config .invalidJson =
      { config := { TRIGGERS? := none, REPLY_TEXT? := none },
        success := false, written := none } := by decide

/-- C9: `config_loader.load_config` never writes, and on every failure path
returns exactly the empty dict with success False; success only happens on
a parsed file, returning that parse. -/
theorem C9_config_loader_total_failure_shape (fs : Config.FileState) :
    (ConfigLoader.load_config fs).written = none ∧
    ((ConfigLoader.load_config fs).success = false →
      (ConfigLoader.load_config fs).config = ConfigLoader.emptyConfig) ∧
    ((ConfigLoader.load_config fs).success = true →
      ∃ j, fs = Config.FileState.validJson j ∧ (ConfigLoader.load_config fs).config = j) := by
  cases fs with
  | validJson j =>
    by_cases hk : (j.TRIGGERS?.isSome && j.REPLY_TEXT?.isSome) = true
    · refine ⟨?_, ?_, ?_⟩
      · simp [ConfigLoader.load_config, hk]
      · simp [ConfigLoader.load_config, hk]
      · intro _
        exact ⟨j, rfl, by simp [ConfigLoader.load_config, hk]⟩
    · simp [ConfigLoader.load_config, hk]
  | missing => simp [ConfigLoader.load_config]
  | invalidJson => simp [ConfigLoader.load_config]
  | otherError => simp [ConfigLoader.load_config]

/-- C9 witness: the malformed-JSON path returns the empty dict. -/
theorem C9_witness :
    (ConfigLoader.load_config .invalidJson).config = ConfigLoader.emptyConfig :=
  (C9_config_loader_total_failure_shape .invalidJson).2.1 rfl

/-- C10: a session-terminated failure inside the reply action is swallowed
by the catch-all handler of `_send_reply`: the tick returns normally with True, the
driver handle is untouched, and the monitoring loop keeps running; the GUI
variant of `_send_reply` likewise swallows it. -/
theorem C10_reply_session_loss_swallowed (s : DiscordBot.BotState)
    (messages : List String) (m : String)
    (hd : s.driver = true) (hm : messages.getLast? = some m)
    (h1 : pyStrip m ≠ "") (h2 : pyStrip m ≠ s.last_seen)
    (hmatch : (s.triggers.any fun trigger =>
      pyIn (pyLower trigger) (pyLower (pyStrip m))) = true) :
    DiscordBot.check_for_new_message s (.ok messages) .webDriverError =
      { result := .ret true, state := { s with last_seen := pyStrip m },
        queriedSession := true, replyInvoked := true, replySent := false } ∧
    (DiscordBot.check_for_new_message s (.ok messages) .webDriverError).state.driver = true ∧
    DiscordBot.bot_monitor_step s (.ok messages) .webDriverError =
      ({ s with last_seen := pyStrip m }, true) ∧
    Gui.send_reply .webDriverError = false := by
  have h := DiscordBot.tick_ok_new s messages m .webDriverError hd hm h1 h2
  rw [if_pos hmatch] at h
  refine ⟨h, ?_, ?_, rfl⟩
  · rw [h]
    exact hd
  · simp [DiscordBot.bot_monitor_step, h]

/-- C10 witness: a concrete session loss during the reply is swallowed and
the loop keeps running. -/
theorem C10_witness :
    DiscordBot.check_for_new_message ⟨["@team"], "Team Take", true, "old"⟩
        (.ok ["@team go"]) .webDriverError =
      { result := .ret true, state := ⟨["@team"], "Team Take", true, "@team go"⟩,
        queriedSession := true, replyInvoked := true, replySent := false } :=
  (C10_reply_session_loss_swallowed ⟨["@team"], "Team Take", true, "old"⟩
      ["@team go"] "@team go" rfl rfl (by decide) (by decide) (by decide)).1
